import Mathlib

/-!
Shallow embedding of `pyanaconda/ui/gui/spokes/blivet_gui.py` (the
`BlivetGuiSpoke` class) for checking the specification claims.

The spoke is modelled as a state record (`SpokeState`) holding

* the three instance attributes assigned in `__init__`
  (`_error`, `_back_already_clicked`, `_storage_playground`),
* the two further instance attributes assigned in `initialize`
  (`self.client`, `self.blivetgui`), modelled by `hasClient` /
  `hasBlivetgui` plus the externally visible state of those objects
  (`client_storage`, `blivetgui_inited`),
* the `StorageChecker` class attributes `errors` / `warnings`,
* the framework-owned info bar (`set_warning` / `clear_info`),
* the external objects the spoke reads and writes: the real storage model
  `self.storage`, the kickstart data `self.data.bootloader.bootDrive`, and
  the anaconda error log.

Each method of the class becomes a function on `SpokeState`.  Outcomes of
external calls (`set_up_bootloader`, the storage-checking library, the
action-list `prune`/`sort`, the summary dialog's return code) are supplied
by an `Env` record.  Code that would raise `AttributeError` in Python
(dereferencing `self._storage_playground` while it is `None`) returns
`none`.
-/

/-- The part of a blivet `DeviceTree` that `blivet_gui.py` touches:
`_devices`, `_actions`, `_hidden`, `names`.  Devices, actions and hidden
devices are opaque and modelled by identifiers. -/
structure DeviceTree where
  devices : List Nat
  actions : List Nat
  hidden : List Nat
  names : List String
deriving DecidableEq, Repr

/-- The part of a `blivet.Blivet` storage object that `blivet_gui.py`
touches: its device tree and its `roots`. -/
structure Storage where
  devicetree : DeviceTree
  roots : List Nat
deriving DecidableEq, Repr

/-- `blivet.Blivet.copy()`: produces an independent copy of the storage
model (value semantics in the embedding). -/
def Storage.copy (st : Storage) : Storage := st

/-- The part of the kickstart data that `blivet_gui.py` touches:
`self.data.bootloader.bootDrive`. -/
structure KickstartData where
  bootDrive : String
deriving DecidableEq, Repr

/-- State of the spoke together with the external objects it reads and
writes. -/
structure SpokeState where
  /-- `self._error` (instance attribute set in `__init__`). -/
  error : Option String
  /-- `self._back_already_clicked` (instance attribute set in `__init__`). -/
  back_already_clicked : Bool
  /-- `self._storage_playground` (instance attribute set in `__init__`). -/
  storage_playground : Option Storage
  /-- `StorageChecker.errors` (class attribute of the mixin). -/
  errors : List String
  /-- `StorageChecker.warnings` (class attribute of the mixin). -/
  warnings : List String
  /-- The info bar message currently shown (`set_warning` / `clear_info`). -/
  infoBar : Option String
  /-- Messages written to the anaconda log at error level. -/
  errorLog : List String
  /-- `self.storage`: the installer's real storage model. -/
  storage : Storage
  /-- `self.data`: the kickstart data (bootloader part). -/
  data : KickstartData
  /-- Whether the instance attribute `self.client` has been assigned. -/
  hasClient : Bool
  /-- Whether the instance attribute `self.blivetgui` has been assigned. -/
  hasBlivetgui : Bool
  /-- The storage object the external client was last initialized with
  (`self.client.initialize(...)`), `none` for a fresh client. -/
  client_storage : Option Storage
  /-- Whether `self.blivetgui.initialize()` has been called on the widget. -/
  blivetgui_inited : Bool
deriving DecidableEq, Repr

/-- Outcomes of the external calls made during one handler invocation. -/
structure Env where
  /-- Result of `self.storage.set_up_bootloader()`: `none` means it
  returned normally, `some msg` means it raised `BootLoaderError(msg)`. -/
  bootloaderResult : Option String
  /-- Errors pre-packaged by the external storage-checking library. -/
  checkErrors : List String
  /-- Warnings pre-packaged by the external storage-checking library. -/
  checkWarnings : List String
  /-- Effect of `actions.prune()` on the pending-action list. -/
  pruneActions : List Nat → List Nat
  /-- Effect of `actions.sort()` on the pending-action list. -/
  sortActions : List Nat → List Nat
  /-- Return code of `ActionSummaryDialog.run()` (1 confirms). -/
  dialogRc : Int

/-- `__init__`: sets `self._error = None`, `self._back_already_clicked =
False`, `self._storage_playground = None`; `storage` and `data` are the
objects passed in by the framework. -/
def initState (storage : Storage) (data : KickstartData) : SpokeState :=
  { error := none
    back_already_clicked := false
    storage_playground := none
    errors := []
    warnings := []
    infoBar := none
    errorLog := []
    storage := storage
    data := data
    hasClient := false
    hasBlivetgui := false
    client_storage := none
    blivetgui_inited := false }

/-- `BlivetGuiSpoke.initialize`: sets `self._storage_playground = None`,
creates a fresh `BlivetGUIAnacondaClient` and binds it to `self.client`,
and creates the `BlivetGUIAnaconda` widget bound to `self.blivetgui`. -/
def spokeInit (s : SpokeState) : SpokeState :=
  { s with
    storage_playground := none
    hasClient := true
    client_storage := none
    hasBlivetgui := true
    blivetgui_inited := false }

/-- `BlivetGuiSpoke.refresh`: resets `_back_already_clicked`, copies
`self.storage` into `self._storage_playground`, passes the copy to
`self.client.initialize` and calls `self.blivetgui.initialize()`. -/
def refresh (s : SpokeState) : SpokeState :=
  let pg := Storage.copy s.storage
  { s with
    back_already_clicked := false
    storage_playground := some pg
    client_storage := some pg
    blivetgui_inited := true }

/-- `BlivetGuiSpoke.apply`: `pass`. -/
def applySpoke (s : SpokeState) : SpokeState := s

/-- `BlivetGuiSpoke.execute`: `pass` (nothing to do here). -/
def executeSpoke (s : SpokeState) : SpokeState := s

/-- `BlivetGuiSpoke.indirect` property: always `True`. -/
def spokeIndirect : Bool := true

/-- `BlivetGuiSpoke.status` property: always `None`. -/
def spokeStatus (_s : SpokeState) : Option String := none

/-- `BlivetGuiSpoke.clear_errors`: `self._error = None; self.clear_info()`. -/
def clear_errors (s : SpokeState) : SpokeState :=
  { s with error := none, infoBar := none }

/-- An edit the embedded partitioning widget performs on the playground
copy of the storage model (the widget only ever works on
`self._storage_playground`, through the client it was created with). -/
def editPlayground (f : Storage → Storage) (s : SpokeState) : SpokeState :=
  { s with storage_playground := Option.map f s.storage_playground }

/-- Modelled from the spec: `StorageChecker.checkStorage`
(`pyanaconda.ui.helpers`, not part of this repository excerpt) runs the
external storage-checking library, whose validation failures "come
pre-packaged" as errors and warnings that are accumulated onto the
checker's error and warning lists. -/
def checkStorage (env : Env) (s : SpokeState) : SpokeState :=
  { s with
    errors := s.errors ++ env.checkErrors
    warnings := s.warnings ++ env.checkWarnings }

/-- Message passed to `set_warning` when the check found errors. -/
def errorCheckingMsg : String :=
  "Error checking storage configuration.  <a href=\"\">Click for details</a> or press Done again to continue."

/-- Message passed to `set_warning` when the check found only warnings. -/
def warningCheckingMsg : String :=
  "Warning checking storage configuration.  <a href=\"\">Click for details</a> or press Done again to continue."

/-- The `if self.errors: ... elif self.warnings: ...` pair of
`set_warning` calls in `_do_check`, as a function from the checker lists
and the previous info bar content to the new info bar content. -/
def infoBarAfterCheck (errs warns : List String) (prev : Option String) : Option String :=
  if errs ≠ [] then some errorCheckingMsg
  else if warns ≠ [] then some warningCheckingMsg
  else prev

/-- Helper for `pySplitNl`: splits the remaining characters at each
newline, `acc` holding the (reversed) characters of the current piece. -/
def splitNlAux : List Char → List Char → List String
  | [], acc => [String.mk acc.reverse]
  | c :: rest, acc =>
    if c = '\n' then String.mk acc.reverse :: splitNlAux rest []
    else splitNlAux rest (c :: acc)

/-- Python's `str.split("\n")`: splits on every newline, keeping empty
pieces; on the empty string it returns `[""]`. -/
def pySplitNl (s : String) : List String := splitNlAux s.data []

/-- The errors produced by the `except BootLoaderError` clause:
`str(e).split("\n")` when the error was raised, nothing otherwise. -/
def bootloaderErrors (env : Env) : List String :=
  match env.bootloaderResult with
  | some e => pySplitNl e
  | none => []

/-- Body of `BlivetGuiSpoke._do_check`, given the dereferenced playground
`pg` (in the source the attribute accesses on `self._storage_playground`).
Returns the new state and the boolean `self._error == ""` that the method
returns. -/
def do_check_core (env : Env) (pg : Storage) (s : SpokeState) : SpokeState × Bool :=
  -- self.clear_errors(); StorageChecker.errors = []; StorageChecker.warnings = []
  let s1 := clear_errors s
  let s2 := { s1 with errors := [], warnings := [] }
  -- update/replace the key attributes of self.storage from the playground:
  -- devicetree._devices, devicetree._actions, devicetree._hidden,
  -- devicetree.names, roots
  let dt : DeviceTree :=
    { devices := pg.devicetree.devices
      actions := pg.devicetree.actions
      hidden := pg.devicetree.hidden
      names := pg.devicetree.names }
  let s3 := { s2 with storage := { devicetree := dt, roots := pg.roots } }
  -- try: self.storage.set_up_bootloader() except BootLoaderError as e: ...
  let s4 :=
    match env.bootloaderResult with
    | some e =>
      { s3 with
        errorLog := s3.errorLog ++ ["storage configuration failed: " ++ e]
        errors := pySplitNl e
        data := { s3.data with bootDrive := "" } }
    | none => s3
  -- StorageChecker.checkStorage(self)
  let s5 := checkStorage env s4
  -- if self.errors: set_warning(error msg) elif self.warnings: set_warning(warning msg)
  let s6 := { s5 with infoBar := infoBarAfterCheck s5.errors s5.warnings s5.infoBar }
  -- self._error = "\n".join(self.errors + self.warnings); return self._error == ""
  let joined := String.intercalate "\n" (s6.errors ++ s6.warnings)
  ({ s6 with error := some joined }, joined == "")

/-- `BlivetGuiSpoke._do_check`: dereferences `self._storage_playground`
(`none` models the `AttributeError` a `None` playground would raise). -/
def do_check (env : Env) (s : SpokeState) : Option (SpokeState × Bool) :=
  match s.storage_playground with
  | none => none
  | some pg => some (do_check_core env pg s)

/-- Result of one `on_back_clicked` invocation: the final state plus which
control path the handler took. -/
structure BackResult where
  state : SpokeState
  /-- Whether `self._do_check()` was invoked. -/
  ranCheck : Bool
  /-- Whether the early `return` guarded by `self._error is not None`
  ("errors while saving") was taken. -/
  tookErrorReturn : Bool
  /-- Whether the `ActionSummaryDialog` was shown. -/
  dialogShown : Bool
  /-- Whether `NormalSpoke.on_back_clicked` was reached (navigation back
  to the hub). -/
  navigated : Bool
deriving DecidableEq, Repr

/-- `self._storage_playground.devicetree.actions.prune()` followed by
`.sort()`: both mutate the playground's pending-action list in place. -/
def pruneSort (env : Env) (pg : Storage) : Storage :=
  { pg with
    devicetree :=
      { pg.devicetree with
        actions := env.sortActions (env.pruneActions pg.devicetree.actions) } }

/-- Tail of `on_back_clicked` from the
`if len(self._storage_playground.devicetree.actions.find()) > 0:` line on:
show the summary dialog when pending actions exist, stay on the spoke when
the user cancels (`rc != 1`), otherwise fall through to
`NormalSpoke.on_back_clicked`. -/
def backDialog (env : Env) (s : SpokeState) (ran : Bool) : Option BackResult :=
  match s.storage_playground with
  | none => none
  | some pg =>
    if 0 < pg.devicetree.actions.length then
      if env.dialogRc ≠ 1 then
        some { state := s, ranCheck := ran, tookErrorReturn := false,
               dialogShown := true, navigated := false }
      else
        some { state := s, ranCheck := ran, tookErrorReturn := false,
               dialogShown := true, navigated := true }
    else
      some { state := s, ranCheck := ran, tookErrorReturn := false,
             dialogShown := false, navigated := true }

/-- `BlivetGuiSpoke.on_back_clicked`. -/
def on_back_clicked (env : Env) (s : SpokeState) : Option BackResult :=
  -- Clear any existing errors
  let s1 := clear_errors s
  match s1.storage_playground with
  | none => none
  | some pg =>
    -- prune and sort the playground's pending actions
    let pg1 := pruneSort env pg
    let s2 := { s1 with storage_playground := some pg1 }
    if s2.back_already_clicked then
      backDialog env s2 false
    else
      let s3 := { s2 with back_already_clicked := true }
      -- if self._error is not None: return
      if s3.error ≠ none then
        some { state := s3, ranCheck := false, tookErrorReturn := true,
               dialogShown := false, navigated := false }
      else
        -- if not self._do_check(): return
        let res := do_check_core env pg1 s3
        if res.2 then
          backDialog env res.1 true
        else
          some { state := res.1, ranCheck := true, tookErrorReturn := false,
                 dialogShown := false, navigated := false }

/-- `BlivetGuiSpoke.on_info_bar_clicked`: returns unchanged when
`self._error` is falsy (`None` or the empty string); otherwise shows a
modal message dialog.  The boolean records whether the dialog was shown. -/
def on_info_bar_clicked (s : SpokeState) : SpokeState × Bool :=
  match s.error with
  | none => (s, false)
  | some e => if e == "" then (s, false) else (s, true)

/-- The real storage model after an `on_back_clicked` invocation. -/
def backStorage (env : Env) (s : SpokeState) : Option Storage :=
  (on_back_clicked env s).map (fun r => r.state.storage)

/-- Whether `_do_check` will return `True`: `self._error == ""` where
`_error` is the newline-join of the errors and warnings the invocation
produced.  This depends only on the environment. -/
def checkPasses (env : Env) : Bool :=
  String.intercalate "\n" ((bootloaderErrors env ++ env.checkErrors) ++ env.checkWarnings) == ""

/-! ## Concrete fixtures -/

/-- An empty device tree. -/
def dt0 : DeviceTree := { devices := [], actions := [], hidden := [], names := [] }

/-- A storage model with an empty device tree. -/
def stor0 : Storage := { devicetree := dt0, roots := [] }

/-- Kickstart data with a configured bootloader drive. -/
def ksd0 : KickstartData := { bootDrive := "sda" }

/-- The spoke right after `__init__`. -/
def spoke0 : SpokeState := initState stor0 ksd0

/-- A widget edit that schedules one pending action on the playground. -/
def addAction1 (st : Storage) : Storage :=
  { st with devicetree := { st.devicetree with actions := [1] } }

/-- An environment where every external call succeeds quietly and the
summary dialog is cancelled (`rc = 0`). -/
def envQuiet : Env :=
  { bootloaderResult := none, checkErrors := [], checkWarnings := [],
    pruneActions := id, sortActions := id, dialogRc := 0 }

/-- An environment where `set_up_bootloader` raises
`BootLoaderError("")` (an empty message). -/
def envBootEmpty : Env :=
  { bootloaderResult := some "", checkErrors := [], checkWarnings := [],
    pruneActions := id, sortActions := id, dialogRc := 0 }

/-- An environment with a bootloader error, a check error and a check
warning, and a confirming dialog (`rc = 1`). -/
def envBoot : Env :=
  { bootloaderResult := some "no valid boot loader target device",
    checkErrors := ["not enough space"], checkWarnings := ["fyi"],
    pruneActions := id, sortActions := id, dialogRc := 1 }

/-- The spoke after a refresh and one widget edit on the playground. -/
def sC1 : SpokeState := editPlayground addAction1 (refresh spoke0)

/-- The playground content of `sC1`. -/
def pgC1 : Storage :=
  { devicetree := { devices := [], actions := [1], hidden := [], names := [] }, roots := [] }

/-! ## Helper lemmas -/

theorem on_info_bar_clicked_state (s : SpokeState) : (on_info_bar_clicked s).1 = s := by
  unfold on_info_bar_clicked
  cases s.error with
  | none => rfl
  | some e =>
    dsimp only
    split <;> rfl

theorem do_check_core_errors (env : Env) (pg : Storage) (s : SpokeState) :
    (do_check_core env pg s).1.errors = bootloaderErrors env ++ env.checkErrors := by
  cases h : env.bootloaderResult <;>
    simp [do_check_core, checkStorage, clear_errors, bootloaderErrors, h]

theorem do_check_core_warnings (env : Env) (pg : Storage) (s : SpokeState) :
    (do_check_core env pg s).1.warnings = env.checkWarnings := by
  cases h : env.bootloaderResult <;>
    simp [do_check_core, checkStorage, clear_errors, h]

theorem do_check_core_error (env : Env) (pg : Storage) (s : SpokeState) :
    (do_check_core env pg s).1.error =
      some (String.intercalate "\n"
        ((bootloaderErrors env ++ env.checkErrors) ++ env.checkWarnings)) := by
  cases h : env.bootloaderResult <;>
    simp [do_check_core, checkStorage, clear_errors, bootloaderErrors, h]

theorem do_check_core_snd (env : Env) (pg : Storage) (s : SpokeState) :
    (do_check_core env pg s).2 = checkPasses env := by
  cases h : env.bootloaderResult <;>
    simp [do_check_core, checkStorage, clear_errors, bootloaderErrors, checkPasses, h]

theorem do_check_core_storage (env : Env) (pg : Storage) (s : SpokeState) :
    (do_check_core env pg s).1.storage = pg := by
  cases h : env.bootloaderResult <;>
    simp [do_check_core, checkStorage, clear_errors, h]

theorem do_check_core_playground (env : Env) (pg : Storage) (s : SpokeState) :
    (do_check_core env pg s).1.storage_playground = s.storage_playground := by
  cases h : env.bootloaderResult <;>
    simp [do_check_core, checkStorage, clear_errors, h]

theorem do_check_core_flag (env : Env) (pg : Storage) (s : SpokeState) :
    (do_check_core env pg s).1.back_already_clicked = s.back_already_clicked := by
  cases h : env.bootloaderResult <;>
    simp [do_check_core, checkStorage, clear_errors, h]

theorem do_check_core_bootDrive (env : Env) (pg : Storage) (s : SpokeState) :
    (do_check_core env pg s).1.data.bootDrive =
      (match env.bootloaderResult with
       | some _ => ""
       | none => s.data.bootDrive) := by
  cases h : env.bootloaderResult <;>
    simp [do_check_core, checkStorage, clear_errors, h]

theorem do_check_core_errorLog (env : Env) (pg : Storage) (s : SpokeState) :
    (do_check_core env pg s).1.errorLog =
      (match env.bootloaderResult with
       | some e => s.errorLog ++ ["storage configuration failed: " ++ e]
       | none => s.errorLog) := by
  cases h : env.bootloaderResult <;>
    simp [do_check_core, checkStorage, clear_errors, h]

theorem do_check_core_infoBar (env : Env) (pg : Storage) (s : SpokeState) :
    (do_check_core env pg s).1.infoBar =
      infoBarAfterCheck (bootloaderErrors env ++ env.checkErrors) env.checkWarnings none := by
  cases h : env.bootloaderResult <;>
    simp [do_check_core, checkStorage, clear_errors, bootloaderErrors, h]

theorem do_check_core_hasClient (env : Env) (pg : Storage) (s : SpokeState) :
    (do_check_core env pg s).1.hasClient = s.hasClient := by
  cases h : env.bootloaderResult <;>
    simp [do_check_core, checkStorage, clear_errors, h]

theorem do_check_core_hasBlivetgui (env : Env) (pg : Storage) (s : SpokeState) :
    (do_check_core env pg s).1.hasBlivetgui = s.hasBlivetgui := by
  cases h : env.bootloaderResult <;>
    simp [do_check_core, checkStorage, clear_errors, h]

theorem on_back_clicked_of_none (env : Env) (s : SpokeState)
    (h : s.storage_playground = none) : on_back_clicked env s = none := by
  simp [on_back_clicked, clear_errors, h]

theorem on_back_clicked_of_clicked (env : Env) (s : SpokeState) (pg : Storage)
    (hpg : s.storage_playground = some pg) (hb : s.back_already_clicked = true) :
    on_back_clicked env s =
      backDialog env
        { clear_errors s with storage_playground := some (pruneSort env pg) } false := by
  simp [on_back_clicked, clear_errors, hpg, hb]

theorem on_back_clicked_of_first (env : Env) (s : SpokeState) (pg : Storage)
    (hpg : s.storage_playground = some pg) (hb : s.back_already_clicked = false) :
    on_back_clicked env s =
      (let s3 := { clear_errors s with
                     storage_playground := some (pruneSort env pg)
                     back_already_clicked := true }
       let res := do_check_core env (pruneSort env pg) s3
       if res.2 then backDialog env res.1 true
       else some { state := res.1, ranCheck := true, tookErrorReturn := false,
                   dialogShown := false, navigated := false }) := by
  simp [on_back_clicked, clear_errors, hpg, hb]

theorem backDialog_of_some (env : Env) (s : SpokeState) (pg : Storage) (ran : Bool)
    (hpg : s.storage_playground = some pg) :
    backDialog env s ran =
      some { state := s, ranCheck := ran, tookErrorReturn := false,
             dialogShown := decide (0 < pg.devicetree.actions.length),
             navigated := if 0 < pg.devicetree.actions.length
                          then decide (env.dialogRc = 1) else true } := by
  simp only [backDialog, hpg]
  split_ifs with h1 h2 <;> simp_all

/-- Characterisation of a successful `on_back_clicked` invocation: the
result it produces whenever the playground is set. -/
def backSpec (env : Env) (pg : Storage) (s : SpokeState) : BackResult :=
  let pg1 := pruneSort env pg
  let s2 := { clear_errors s with storage_playground := some pg1 }
  if s.back_already_clicked then
    { state := s2, ranCheck := false, tookErrorReturn := false,
      dialogShown := decide (0 < pg1.devicetree.actions.length),
      navigated := if 0 < pg1.devicetree.actions.length
                   then decide (env.dialogRc = 1) else true }
  else
    let s3 := { s2 with back_already_clicked := true }
    let res := do_check_core env pg1 s3
    if checkPasses env then
      { state := res.1, ranCheck := true, tookErrorReturn := false,
        dialogShown := decide (0 < pg1.devicetree.actions.length),
        navigated := if 0 < pg1.devicetree.actions.length
                     then decide (env.dialogRc = 1) else true }
    else
      { state := res.1, ranCheck := true, tookErrorReturn := false,
        dialogShown := false, navigated := false }

theorem on_back_clicked_spec (env : Env) (s : SpokeState) (pg : Storage)
    (hpg : s.storage_playground = some pg) :
    on_back_clicked env s = some (backSpec env pg s) := by
  cases hb : s.back_already_clicked
  · rw [on_back_clicked_of_first env s pg hpg hb]
    simp only [backSpec, hb, if_neg Bool.false_ne_true]
    rw [do_check_core_snd]
    by_cases hc : checkPasses env
    · simp only [hc, if_pos]
      rw [backDialog_of_some env _ (pruneSort env pg) true]
      rw [do_check_core_playground]
    · simp [hc]
  · rw [on_back_clicked_of_clicked env s pg hpg hb]
    simp only [backSpec, hb, if_pos]
    exact backDialog_of_some env _ (pruneSort env pg) false rfl

theorem backStorage_eq (env : Env) (s : SpokeState) (pg : Storage)
    (hpg : s.storage_playground = some pg) :
    backStorage env s =
      some (if s.back_already_clicked then s.storage else pruneSort env pg) := by
  rw [backStorage, on_back_clicked_spec env s pg hpg, Option.map_some']
  cases hb : s.back_already_clicked
  · by_cases hc : checkPasses env = true <;>
      simp [backSpec, hb, hc, do_check_core_storage]
  · simp [backSpec, hb, clear_errors]

/-! ## Claims -/

/-- C1 (counterexample): the claim "the installer's real storage model is
not modified by this spoke until the user confirms the pending changes"
is false.  After a refresh and one widget edit on the playground (one
pending action), a single `on_back_clicked` whose summary dialog the user
cancels (`rc = 0`, no confirmation) leaves the real storage model already
carrying the playground's pending action: the validation pass copies the
playground's device tree into `self.storage` before the dialog runs. -/
theorem C1_counterexample :
    sC1.storage.devicetree.actions = [] ∧
    (on_back_clicked envQuiet sC1).map
      (fun r => (r.navigated, r.dialogShown, r.state.storage.devicetree.actions)) =
      some (false, true, [1]) := by
  decide

/-- C1 (amended): the real storage model is untouched by `initialize`,
`refresh`, `apply`, `execute`, `clear_errors`, widget edits on the
playground and `on_info_bar_clicked`; but `on_back_clicked` with the
back-button not yet clicked runs `_do_check`, which replaces the real
storage model's device-tree content and roots with the (pruned, sorted)
playground's before the confirmation dialog is shown.  On subsequent
back clicks (flag already set) the storage is left unchanged. -/
theorem C1_storage_modified_by_first_back_click (env : Env) (s : SpokeState)
    (pg : Storage) (f : Storage → Storage) (hpg : s.storage_playground = some pg) :
    (spokeInit s).storage = s.storage ∧
    (refresh s).storage = s.storage ∧
    (applySpoke s).storage = s.storage ∧
    (executeSpoke s).storage = s.storage ∧
    (clear_errors s).storage = s.storage ∧
    (editPlayground f s).storage = s.storage ∧
    (on_info_bar_clicked s).1.storage = s.storage ∧
    backStorage env s =
      some (if s.back_already_clicked then s.storage else pruneSort env pg) := by
  refine ⟨rfl, rfl, rfl, rfl, rfl, rfl, ?_, backStorage_eq env s pg hpg⟩
  rw [on_info_bar_clicked_state]

/-- C1 (witness): the amended theorem applied to the concrete state after
a refresh and one playground edit. -/
theorem C1_storage_modified_witness :
    backStorage envQuiet sC1 = some (pruneSort envQuiet pgC1) := by
  have h := (C1_storage_modified_by_first_back_click envQuiet sC1 pgC1 id
    (by decide)).2.2.2.2.2.2.2
  have hb : sC1.back_already_clicked = false := by decide
  rw [hb] at h
  simpa using h

/-- C2: `refresh` resets `_back_already_clicked`; `on_back_clicked` runs
the storage check exactly when the flag is still false (the first click
after a refresh) and sets the flag; on every later click (flag true) the
check is skipped and the handler proceeds to the confirmation dialog or
navigation. -/
theorem C2_check_runs_exactly_on_first_back_click (env : Env) (s : SpokeState)
    (pg : Storage) (hpg : s.storage_playground = some pg) :
    (refresh s).back_already_clicked = false ∧
    ∃ r, on_back_clicked env s = some r ∧
      r.ranCheck = !s.back_already_clicked ∧
      r.state.back_already_clicked = true ∧
      (s.back_already_clicked = true → r.dialogShown = true ∨ r.navigated = true) := by
  refine ⟨rfl, backSpec env pg s, on_back_clicked_spec env s pg hpg, ?_, ?_, ?_⟩
  · cases hb : s.back_already_clicked <;> by_cases hc : checkPasses env = true <;>
      simp [backSpec, hb, hc]
  · cases hb : s.back_already_clicked <;> by_cases hc : checkPasses env = true <;>
      simp [backSpec, hb, hc, do_check_core_flag, clear_errors]
  · intro hb
    by_cases hl : 0 < (pruneSort env pg).devicetree.actions.length <;>
      simp [backSpec, hb, hl]

/-- C2 (witness): the theorem at the concrete post-refresh state. -/
theorem C2_check_runs_witness :
    (refresh sC1).back_already_clicked = false ∧
    ∃ r, on_back_clicked envQuiet sC1 = some r ∧
      r.ranCheck = !sC1.back_already_clicked ∧
      r.state.back_already_clicked = true ∧
      (sC1.back_already_clicked = true → r.dialogShown = true ∨ r.navigated = true) :=
  C2_check_runs_exactly_on_first_back_click envQuiet sC1 pgC1 (by decide)

/-- C3: the only exception `_do_check` handles is `BootLoaderError` from
`set_up_bootloader` (the embedding of the method is total: every other
validation failure arrives as pre-packaged errors and warnings from the
storage-checking library).  When the error is raised, its message is
logged, split on newlines at the head of the accumulated error list, and
the kickstart bootloader drive is cleared; otherwise the log, the
bootloader drive and the prior error list are untouched. -/
theorem C3_bootloader_error_caught (env : Env) (s : SpokeState) (pg : Storage)
    (hpg : s.storage_playground = some pg) :
    do_check env s = some (do_check_core env pg s) ∧
    (do_check_core env pg s).1.errors = bootloaderErrors env ++ env.checkErrors ∧
    (do_check_core env pg s).1.errorLog =
      (match env.bootloaderResult with
       | some e => s.errorLog ++ ["storage configuration failed: " ++ e]
       | none => s.errorLog) ∧
    (do_check_core env pg s).1.data.bootDrive =
      (match env.bootloaderResult with
       | some _ => ""
       | none => s.data.bootDrive) :=
  ⟨by simp [do_check, hpg], do_check_core_errors env pg s,
   do_check_core_errorLog env pg s, do_check_core_bootDrive env pg s⟩

/-- C3 (witness): the theorem at a concrete environment in which
`set_up_bootloader` raises a `BootLoaderError`. -/
theorem C3_bootloader_error_witness :
    do_check envBoot sC1 = some (do_check_core envBoot pgC1 sC1) ∧
    (do_check_core envBoot pgC1 sC1).1.errors =
      bootloaderErrors envBoot ++ envBoot.checkErrors ∧
    (do_check_core envBoot pgC1 sC1).1.errorLog =
      (match envBoot.bootloaderResult with
       | some e => sC1.errorLog ++ ["storage configuration failed: " ++ e]
       | none => sC1.errorLog) ∧
    (do_check_core envBoot pgC1 sC1).1.data.bootDrive =
      (match envBoot.bootloaderResult with
       | some _ => ""
       | none => sC1.data.bootDrive) :=
  C3_bootloader_error_caught envBoot sC1 pgC1 (by decide)

/-- C4 (counterexample): the claim "`_do_check` returns true if and only
if the storage check produced no errors and no warnings" is false.  When
`set_up_bootloader` raises `BootLoaderError("")` (empty message), the
error list becomes `[""]` (nonempty, so the error info bar is set), yet
the newline-join of the lists is the empty string and `_do_check`
returns true. -/
theorem C4_counterexample :
    (do_check_core envBootEmpty pgC1 spoke0).2 = true ∧
    (do_check_core envBootEmpty pgC1 spoke0).1.errors = [""] ∧
    (do_check_core envBootEmpty pgC1 spoke0).1.infoBar = some errorCheckingMsg := by
  decide

/-- C4 (amended): `_do_check` returns true if and only if the newline
join of the produced errors followed by the produced warnings is the
empty string (in particular it returns true whenever no errors and no
warnings were produced, but also in the degenerate case where the only
produced item is a single empty string); afterwards `_error` equals that
join, and the info bar holds the error message when errors exist, else
the warning message when warnings exist, else nothing. -/
theorem C4_do_check_result (env : Env) (s : SpokeState) (pg : Storage)
    (hpg : s.storage_playground = some pg) :
    ∃ out, do_check env s = some out ∧
      out.1.errors = bootloaderErrors env ++ env.checkErrors ∧
      out.1.warnings = env.checkWarnings ∧
      out.1.error = some (String.intercalate "\n" (out.1.errors ++ out.1.warnings)) ∧
      out.2 = (String.intercalate "\n" (out.1.errors ++ out.1.warnings) == "") ∧
      out.1.infoBar = infoBarAfterCheck out.1.errors out.1.warnings none ∧
      (out.1.errors = [] → out.1.warnings = [] → out.2 = true) := by
  refine ⟨do_check_core env pg s, by simp [do_check, hpg], do_check_core_errors env pg s,
    do_check_core_warnings env pg s, ?_, ?_, ?_, ?_⟩
  · rw [do_check_core_errors, do_check_core_warnings, do_check_core_error]
  · rw [do_check_core_errors, do_check_core_warnings, do_check_core_snd, checkPasses]
  · rw [do_check_core_errors, do_check_core_warnings, do_check_core_infoBar]
  · intro he hw
    rw [do_check_core_errors] at he
    rw [do_check_core_warnings] at hw
    simp [do_check_core_snd, checkPasses, he, hw]
    decide

/-- C4 (witness): the amended theorem at a concrete environment with a
bootloader error, a check error and a check warning. -/
theorem C4_do_check_witness :
    ∃ out, do_check envBoot sC1 = some out ∧
      out.1.errors = bootloaderErrors envBoot ++ envBoot.checkErrors ∧
      out.1.warnings = envBoot.checkWarnings ∧
      out.1.error = some (String.intercalate "\n" (out.1.errors ++ out.1.warnings)) ∧
      out.2 = (String.intercalate "\n" (out.1.errors ++ out.1.warnings) == "") ∧
      out.1.infoBar = infoBarAfterCheck out.1.errors out.1.warnings none ∧
      (out.1.errors = [] → out.1.warnings = [] → out.2 = true) :=
  C4_do_check_result envBoot sC1 pgC1 (by decide)

/-- C5: when the user navigates back for the first time and the check
passes, the summary dialog is shown exactly when the (pruned, sorted)
playground action list is nonempty; the spoke navigates back to the hub
exactly when there are no pending actions or the dialog returns 1, and a
cancelled dialog (return code other than 1) leaves the handler without
navigating. -/
theorem C5_dialog_iff_pending_actions (env : Env) (s : SpokeState) (pg : Storage)
    (hpg : s.storage_playground = some pg)
    (hb : s.back_already_clicked = false)
    (hok : checkPasses env = true) :
    ∃ r, on_back_clicked env s = some r ∧
      r.ranCheck = true ∧
      r.dialogShown = decide (0 < (pruneSort env pg).devicetree.actions.length) ∧
      r.navigated = (if 0 < (pruneSort env pg).devicetree.actions.length
                     then decide (env.dialogRc = 1) else true) := by
  refine ⟨backSpec env pg s, on_back_clicked_spec env s pg hpg, ?_, ?_, ?_⟩ <;>
    simp [backSpec, hb, hok]

/-- C5 (witness): the theorem at the concrete edited state with a
cancelling dialog. -/
theorem C5_dialog_witness :
    ∃ r, on_back_clicked envQuiet sC1 = some r ∧
      r.ranCheck = true ∧
      r.dialogShown = decide (0 < (pruneSort envQuiet pgC1).devicetree.actions.length) ∧
      r.navigated = (if 0 < (pruneSort envQuiet pgC1).devicetree.actions.length
                     then decide (envQuiet.dialogRc = 1) else true) :=
  C5_dialog_iff_pending_actions envQuiet sC1 pgC1 (by decide) (by decide) (by decide)

/-- C6: every `refresh` resets the back-clicked flag, stores a fresh copy
of the real storage model as the playground, hands that same copy to the
external client, marks the widget as re-initialised, and leaves the real
storage model, the recorded error and the kickstart data unchanged. -/
theorem C6_refresh_behaviour (s : SpokeState) :
    (refresh s).back_already_clicked = false ∧
    (refresh s).storage_playground = some (Storage.copy s.storage) ∧
    (refresh s).client_storage = some (Storage.copy s.storage) ∧
    (refresh s).blivetgui_inited = true ∧
    (refresh s).storage = s.storage ∧
    (refresh s).error = s.error ∧
    (refresh s).data = s.data :=
  ⟨rfl, rfl, rfl, rfl, rfl, rfl, rfl⟩

/-- C7 (counterexample): the claim that the playground reference, the
error message and the back-clicked flag are the only instance state the
file owns is false: the `initialize` lifecycle method additionally
introduces the `self.client` and `self.blivetgui` instance attributes,
which `__init__` had not created. -/
theorem C7_counterexample :
    (initState stor0 ksd0).hasClient = false ∧
    (initState stor0 ksd0).hasBlivetgui = false ∧
    (spokeInit (initState stor0 ksd0)).hasClient = true ∧
    (spokeInit (initState stor0 ksd0)).hasBlivetgui = true := by
  decide

/-- C7 (amended): the instance state owned by the file is the playground
reference, the nullable error message, the back-clicked flag, plus the
client and widget references that the `initialize` lifecycle method
creates; no operation other than `initialize` introduces or rebinds the
client or widget attributes. -/
theorem C7_owned_state (env : Env) (s : SpokeState) (pg : Storage)
    (f : Storage → Storage) (hpg : s.storage_playground = some pg) :
    (spokeInit s).hasClient = true ∧ (spokeInit s).hasBlivetgui = true ∧
    (refresh s).hasClient = s.hasClient ∧ (refresh s).hasBlivetgui = s.hasBlivetgui ∧
    (applySpoke s).hasClient = s.hasClient ∧ (applySpoke s).hasBlivetgui = s.hasBlivetgui ∧
    (executeSpoke s).hasClient = s.hasClient ∧
    (executeSpoke s).hasBlivetgui = s.hasBlivetgui ∧
    (clear_errors s).hasClient = s.hasClient ∧
    (clear_errors s).hasBlivetgui = s.hasBlivetgui ∧
    (editPlayground f s).hasClient = s.hasClient ∧
    (editPlayground f s).hasBlivetgui = s.hasBlivetgui ∧
    (on_info_bar_clicked s).1.hasClient = s.hasClient ∧
    (on_info_bar_clicked s).1.hasBlivetgui = s.hasBlivetgui ∧
    ∃ r, on_back_clicked env s = some r ∧
      r.state.hasClient = s.hasClient ∧ r.state.hasBlivetgui = s.hasBlivetgui := by
  refine ⟨rfl, rfl, rfl, rfl, rfl, rfl, rfl, rfl, rfl, rfl, rfl, rfl, ?_, ?_,
    backSpec env pg s, on_back_clicked_spec env s pg hpg, ?_, ?_⟩
  · rw [on_info_bar_clicked_state]
  · rw [on_info_bar_clicked_state]
  · cases hb : s.back_already_clicked <;> by_cases hc : checkPasses env = true <;>
      simp [backSpec, hb, hc, do_check_core_hasClient, clear_errors]
  · cases hb : s.back_already_clicked <;> by_cases hc : checkPasses env = true <;>
      simp [backSpec, hb, hc, do_check_core_hasBlivetgui, clear_errors]

/-- C7 (witness): the amended theorem at the concrete post-refresh
state. -/
theorem C7_owned_state_witness :
    (spokeInit sC1).hasClient = true ∧ (spokeInit sC1).hasBlivetgui = true ∧
    (refresh sC1).hasClient = sC1.hasClient ∧
    (refresh sC1).hasBlivetgui = sC1.hasBlivetgui ∧
    (applySpoke sC1).hasClient = sC1.hasClient ∧
    (applySpoke sC1).hasBlivetgui = sC1.hasBlivetgui ∧
    (executeSpoke sC1).hasClient = sC1.hasClient ∧
    (executeSpoke sC1).hasBlivetgui = sC1.hasBlivetgui ∧
    (clear_errors sC1).hasClient = sC1.hasClient ∧
    (clear_errors sC1).hasBlivetgui = sC1.hasBlivetgui ∧
    (editPlayground addAction1 sC1).hasClient = sC1.hasClient ∧
    (editPlayground addAction1 sC1).hasBlivetgui = sC1.hasBlivetgui ∧
    (on_info_bar_clicked sC1).1.hasClient = sC1.hasClient ∧
    (on_info_bar_clicked sC1).1.hasBlivetgui = sC1.hasBlivetgui ∧
    ∃ r, on_back_clicked envQuiet sC1 = some r ∧
      r.state.hasClient = sC1.hasClient ∧ r.state.hasBlivetgui = sC1.hasBlivetgui :=
  C7_owned_state envQuiet sC1 pgC1 addAction1 (by decide)

/-- C8: when no error is recorded (`_error` is `None` or the empty
string, both falsy in Python), `on_info_bar_clicked` returns at once:
the state is unchanged and no dialog is constructed or shown. -/
theorem C8_info_bar_noop_without_error (s : SpokeState)
    (h : s.error = none ∨ s.error = some "") :
    on_info_bar_clicked s = (s, false) := by
  rcases h with h | h <;> simp [on_info_bar_clicked, h]

/-- C8 (witness): the theorem at the freshly constructed spoke, whose
error is `None`. -/
theorem C8_info_bar_noop_witness : on_info_bar_clicked spoke0 = (spoke0, false) :=
  C8_info_bar_noop_without_error spoke0 (Or.inl rfl)

/-- C9: the early return in `on_back_clicked` guarded by
`self._error is not None` is dead code: `clear_errors()` at the top of
the handler sets `_error` to `None` and nothing before the guard assigns
it, so no invocation ever takes that branch. -/
theorem C9_error_guard_dead (env : Env) (s : SpokeState) :
    (on_back_clicked env s).map BackResult.tookErrorReturn =
      (on_back_clicked env s).map (fun _ => false) := by
  cases hpg : s.storage_playground with
  | none => rw [on_back_clicked_of_none env s hpg]; rfl
  | some pg =>
    rw [on_back_clicked_spec env s pg hpg]
    simp only [Option.map_some']
    cases hb : s.back_already_clicked <;> by_cases hc : checkPasses env = true <;>
      simp [backSpec, hb, hc]

/-- C10: `apply` and `execute` are no-ops on the whole state (spoke
fields, playground, real storage model and kickstart data included), the
`status` property is always `None`, and the `indirect` property is
always true. -/
theorem C10_apply_execute_noops (s : SpokeState) :
    applySpoke s = s ∧ executeSpoke s = s ∧
    spokeStatus s = none ∧ spokeIndirect = true :=
  ⟨rfl, rfl, rfl, rfl⟩
